import Mathlib

/-!
Verification model of the offline-map acquisition pipeline in
`app/(tabs)/index.tsx` (the redirect-aware variant of the screen).

File contents are modelled as byte lists (`List Nat`, each entry a byte
value; all fixture contents used here are ASCII, where byte values and
UTF-8 code units coincide).  The filesystem visible to the pipeline holds
exactly the two package paths the code touches (the provisional download
path and the canonical installed path); React component state is a record,
and the stale-closure semantics of an async handler is modelled by passing
the captured `offlineMapAvailable` value separately from the live state.
External collaborators (the HTTP fetch, the SQLite engine) are modelled as
oracle fields of a `Scenario` record.  Each modelled function mirrors one
source function and emits an event trace (transfer requests, progress
reports, alerts, file deletions, database closes).
-/

/-- Byte values of an ASCII string literal. -/
def asciiBytes (s : String) : List Nat := s.data.map Char.toNat

/-- Byte list rendered back as a string (used for ASCII fragments). -/
def bytesToString (l : List Nat) : String := ⟨l.map Char.ofNat⟩

/-- Boolean list prefix test, `startsWithB pat l` is true when `pat` is an
initial segment of `l` (mirrors JavaScript `String.startsWith`). -/
def startsWithB [BEq α] : List α → List α → Bool
  | [], _ => true
  | _ :: _, [] => false
  | p :: ps, x :: xs => p == x && startsWithB ps xs

/-- Boolean substring test (mirrors JavaScript `String.includes`). -/
def containsSub [BEq α] (pat : List α) : List α → Bool
  | [] => pat.isEmpty
  | b :: rest => startsWithB pat (b :: rest) || containsSub pat rest

/-- The standard base64 alphabet character for a sextet value. -/
def base64Char (n : Nat) : Char :=
  "ABCDEFGHIJKLMNOPQRSTUVWXYZabcdefghijklmnopqrstuvwxyz0123456789+/".data.getD n 'A'

/-- Standard base64 encoding of a byte list (what
`FileSystem.readAsStringAsync` with `EncodingType.Base64` yields). -/
def base64Encode : List Nat → List Char
  | [] => []
  | [b1] => [base64Char (b1 / 4), base64Char (b1 % 4 * 16), '=', '=']
  | [b1, b2] =>
      [base64Char (b1 / 4), base64Char (b1 % 4 * 16 + b2 / 16),
       base64Char (b2 % 16 * 4), '=']
  | b1 :: b2 :: b3 :: rest =>
      base64Char (b1 / 4) :: base64Char (b1 % 4 * 16 + b2 / 16) ::
      base64Char (b2 % 16 * 4 + b3 / 64) :: base64Char (b3 % 64) ::
      base64Encode rest

/-- The 16-byte SQLite file signature `SQLite format 3\0`. -/
def sqliteSignature : List Nat := asciiBytes "SQLite format 3" ++ [0]

/-- `isValidSQLiteDatabase` from the source: read the first 16 bytes of the
file base64-encoded and test `header.startsWith("U1RGRnRt")`. -/
def isValidSQLiteDatabase (content : List Nat) : Bool :=
  startsWithB "U1RGRnRt".data (base64Encode (content.take 16))

/-- The byte pattern of the HTML sniff literal `<!DOCTYPE html>`. -/
def doctypePattern : List Nat := asciiBytes "<!DOCTYPE html>"

/-- The literal part of the regular expression
`uc\?export=download&confirm=([^"]+)` used on the hosting page. -/
def confirmPattern : List Nat := asciiBytes "uc?export=download&confirm="

/-- Leftmost regex match for `uc\?export=download&confirm=([^"]+)`:
at each position try the literal followed by a non-empty maximal run of
non-quote bytes (byte 34 is the double quote); on failure advance one
position, exactly as a regex engine scans.  Returns `match[0]`. -/
def scanMatch : List Nat → Option (List Nat)
  | [] => none
  | b :: rest =>
    if startsWithB confirmPattern (b :: rest) then
      if (((b :: rest).drop confirmPattern.length).takeWhile (fun c => c != 34)).isEmpty then
        scanMatch rest
      else
        some (confirmPattern ++ ((b :: rest).drop confirmPattern.length).takeWhile (fun c => c != 34))
    else scanMatch rest

/-- `extractDirectDownloadLink` from the source: regex-match the hosting
page and resolve `match[0]` against the hosting domain. -/
def extractDirectDownloadLink (html : List Nat) : Option String :=
  (scanMatch html).map (fun m => "https://drive.google.com/" ++ bytesToString m)

/-- App-private storage root (`FileSystem.documentDirectory`), abstracted. -/
def documentDirectory : String := "file:///data/app/"

/-- Canonical installed-package path. -/
def mbtilesPath : String := documentDirectory ++ "kolkata_10km.mbtiles"

/-- Provisional download path. -/
def tempDownloadPath : String := documentDirectory ++ "kolkata_10km_download.mbtiles"

/-- The remote source URL constant from the source file. -/
def GITHUB_RELEASE_URL : String :=
  "https://drive.google.com/uc?export=download&id=1KghfVnf3KPPnvpOtqJCNXnHdGZC9BNj1&confirm=t"

/-- The two package paths of the artifact store; `none` means the file
does not exist, `some c` that it exists with content `c`. -/
structure Store where
  provisional : Option (List Nat)
  canonical : Option (List Nat)
deriving DecidableEq

/-- React component state relevant to the pipeline: the `downloading`
flag, the reported progress scalar, the availability flag, and whether a
live SQLite handle is held (`db !== null`). -/
structure AppState where
  downloading : Bool
  downloadProgress : ℚ
  offlineMapAvailable : Bool
  dbHandle : Bool
deriving DecidableEq

/-- The component state at mount. -/
def initialAppState : AppState :=
  { downloading := false, downloadProgress := 0
    offlineMapAvailable := false, dbHandle := false }

/-- Observable events emitted by a run. -/
inductive Event where
  | transfer (url : String) (dest : String)
  | progress (q : ℚ)
  | alert (title : String) (message : String)
  | dbClose
  | fileDelete (path : String)
deriving DecidableEq

/-- Oracle for the SQLite collaborator when the canonical file is opened:
whether `openDatabaseAsync` succeeds, whether the schema query succeeds
and what table names it returns, whether the row-count query on the found
tiles table succeeds, and whether the metadata query succeeds. -/
structure DbModel where
  openOk : Bool
  tablesOk : Bool
  tables : List String
  countOk : Bool
  metadataOk : Bool
deriving DecidableEq

/-- `tables.find(t => t.name === 'tiles' || t.name === 'tile')`. -/
def findTilesTable (tables : List String) : Option String :=
  tables.find? (fun t => t == "tiles" || t == "tile")

/-- Model of the source function `initializeDatabase`: re-check existence,
open the database (setting the handle), list the tables, count rows in the
`tiles`/`tile` table when one exists, read the `metadata` table when it
exists; any failure is caught, clearing both the availability flag and the
handle. -/
def initDatabase (dbm : DbModel) (st : AppState) (store : Store) : AppState :=
  match store.canonical with
  | none => { st with offlineMapAvailable := false }
  | some _ =>
    if !dbm.openOk then { st with offlineMapAvailable := false, dbHandle := false }
    else
      let st1 := { st with dbHandle := true }
      if !dbm.tablesOk then
        { st1 with offlineMapAvailable := false, dbHandle := false }
      else if (match findTilesTable dbm.tables with
               | some _ => !dbm.countOk
               | none => false) then
        { st1 with offlineMapAvailable := false, dbHandle := false }
      else if dbm.tables.contains "metadata" && !dbm.metadataOk then
        { st1 with offlineMapAvailable := false, dbHandle := false }
      else st1

/-- `checkOfflineMapAvailability` from the source: the canonical file must
exist with non-zero size, in which case the availability flag is set and
the database is initialized (which may clear the flag again on error). -/
def checkOfflineMapAvailability (dbm : DbModel) (st : AppState) (store : Store) : AppState :=
  match store.canonical with
  | some content =>
    if content.length > 0 then
      initDatabase dbm { st with offlineMapAvailable := true } store
    else { st with offlineMapAvailable := false }
  | none => { st with offlineMapAvailable := false }

/-- The availability verdict recomputed from store state alone. -/
def isAvailable (dbm : DbModel) (store : Store) : Bool :=
  (checkOfflineMapAvailability dbm initialAppState store).offlineMapAvailable

/-- The throw sites inside `processDownloadedFile` (one constructor per
`throw new Error` reachable there, plus the propagated `moveAsync`
failure). -/
inductive ProcError where
  | emptyFile
  | invalidFormat
  | moveFailed
  | installVerificationFailed
  | corrupted
deriving DecidableEq

/-- The alert message composed in the catch block of
`processDownloadedFile` from substrings of the thrown message.  The
platform message of a failed `moveAsync` and the post-move verification
message contain none of the three tested substrings. -/
def procAlertMessage (e : ProcError) : String :=
  "Failed to process the downloaded map." ++
  (match e with
   | .emptyFile => "\nThe downloaded file is empty."
   | .invalidFormat => "\nThe downloaded file is not a valid MBTiles file."
   | .corrupted => "\nThe downloaded file is corrupted."
   | _ => "")

/-- The throw sites inside the try block of `startDownload` itself. -/
inductive DlError where
  | noFile
  | redirectExtractionFailed
  | retryNoFile
deriving DecidableEq

/-- The thrown message at each `startDownload` throw site. -/
def dlErrorMessage : DlError → String
  | .noFile => "Download failed - no file received"
  | .redirectExtractionFailed => "Failed to extract direct download link from Google Drive."
  | .retryNoFile => "Retry download failed - no file received"

/-- The alert message composed in the catch block of `startDownload`;
none of the three thrown messages contains `Network`, `404` or `HTML`, so
the generic branch appends the raw message. -/
def dlAlertMessage (e : DlError) : String :=
  "Failed to download offline map. " ++ dlErrorMessage e

/-- How one invocation settled. -/
inductive Outcome where
  | success
  | procFailed (e : ProcError)
  | downloadFailed (e : DlError)
deriving DecidableEq

/-- The result of a modelled run: how it settled, the final component
state, the final store, and the emitted event trace. -/
structure RunResult where
  outcome : Outcome
  state : AppState
  store : Store
  events : List Event
deriving DecidableEq

/-- The catch block of `processDownloadedFile`: alert, then delete the
file at the canonical path when it exists. -/
def procCleanup (e : ProcError) (st : AppState) (store : Store) (evs : List Event) : RunResult :=
  let evs1 := evs ++ [Event.alert "Processing Failed" (procAlertMessage e)]
  match store.canonical with
  | some _ =>
      ⟨.procFailed e, st, { store with canonical := none },
        evs1 ++ [Event.fileDelete mbtilesPath]⟩
  | none => ⟨.procFailed e, st, store, evs1⟩

/-- Model of the source function `processDownloadedFile`, called on the
provisional path.  `avail0` is the `offlineMapAvailable` value captured by
the handler closure at render time (NOT the live state), `moveOk` is the
oracle for the `moveAsync` call.  Mirrors the source line by line:
existence/size check, header validation, delete of a pre-existing
canonical file, move, post-move verification, progress 1.0, availability
re-check, then the success alert or the `corrupted` throw decided by the
captured `avail0`. -/
def processDownloadedFile (avail0 : Bool) (dbm : DbModel) (moveOk : Bool)
    (st : AppState) (store : Store) (evs : List Event) : RunResult :=
  match store.provisional with
  | none => procCleanup .emptyFile st store evs
  | some content =>
    if content.length == 0 then procCleanup .emptyFile st store evs
    else if !(isValidSQLiteDatabase content) then procCleanup .invalidFormat st store evs
    else
      let p :=
        match store.canonical with
        | some _ => ({ store with canonical := none },
                     evs ++ [Event.fileDelete mbtilesPath])
        | none => (store, evs)
      let store1 := p.1
      let evs1 := p.2
      if !moveOk then procCleanup .moveFailed st store1 evs1
      else
        let store2 : Store := { provisional := none, canonical := store1.provisional }
        match store2.canonical with
        | none => procCleanup .installVerificationFailed st store2 evs1
        | some moved =>
          if moved.length == 0 then procCleanup .installVerificationFailed st store2 evs1
          else
            let st2 := { st with downloadProgress := 1 }
            let evs2 := evs1 ++ [Event.progress 1]
            let st3 := checkOfflineMapAvailability dbm st2 store2
            if avail0 then
              ⟨.success, st3, store2,
                evs2 ++ [Event.alert "Success!" "Offline map downloaded and installed successfully!"]⟩
            else procCleanup .corrupted st3 store2 evs2

/-- One external world for a run: the network response per URL (`none`
models `downloadAsync` yielding no file), the progress callback samples
`(totalBytesWritten, totalBytesExpectedToWrite)` of each transfer, the
`moveAsync` oracle and the SQLite oracle. -/
structure Scenario where
  response : String → Option (List Nat)
  initialEvents : List (ℚ × ℚ)
  retryEvents : List (ℚ × ℚ)
  moveOk : Bool
  db : DbModel

/-- The progress callback body:
`Math.min(totalBytesWritten / totalBytesExpectedToWrite, 0.9)`. -/
def transferProgress (w e : ℚ) : ℚ := if w / e ≤ 9 / 10 then w / e else 9 / 10

/-- Run the progress callback on each transfer sample, updating the
reported scalar and the trace. -/
def applyTransferEvents : List (ℚ × ℚ) → AppState → List Event → AppState × List Event
  | [], st, evs => (st, evs)
  | s :: rest, st, evs =>
    let v := transferProgress s.1 s.2
    applyTransferEvents rest { st with downloadProgress := v } (evs ++ [Event.progress v])

/-- The catch block of `startDownload`. -/
def dlCatch (e : DlError) (st : AppState) (store : Store) (evs : List Event) : RunResult :=
  ⟨.downloadFailed e, st, store, evs ++ [Event.alert "Download Failed" (dlAlertMessage e)]⟩

/-- The try/catch part of the source function `startDownload` (everything
up to the finally block): set the downloading flag and zero progress,
delete a stale provisional file, run the first transfer, sniff the first
100 bytes for `<!DOCTYPE html>`, on a hosting page extract the direct link
and run exactly one retry transfer to the same provisional path, then hand
the provisional file to `processDownloadedFile`. -/
def startDownloadBody (sc : Scenario) (st0 : AppState) (store0 : Store) : RunResult :=
  let avail0 := st0.offlineMapAvailable
  let st := { st0 with downloading := true, downloadProgress := 0 }
  let evs : List Event := [Event.progress 0]
  let p :=
    match store0.provisional with
    | some _ => ({ store0 with provisional := none },
                 evs ++ [Event.fileDelete tempDownloadPath])
    | none => (store0, evs)
  let store := p.1
  let evs1 := p.2 ++ [Event.transfer GITHUB_RELEASE_URL tempDownloadPath]
  let q := applyTransferEvents sc.initialEvents st evs1
  let st1 := q.1
  let evs2 := q.2
  match sc.response GITHUB_RELEASE_URL with
  | none => dlCatch .noFile st1 store evs2
  | some content =>
    let store1 : Store := { store with provisional := some content }
    if containsSub doctypePattern (content.take 100) then
      match extractDirectDownloadLink content with
      | none => dlCatch .redirectExtractionFailed st1 store1 evs2
      | some link =>
        let evs3 := evs2 ++ [Event.transfer link tempDownloadPath]
        let r := applyTransferEvents sc.retryEvents st1 evs3
        match sc.response link with
        | none => dlCatch .retryNoFile r.1 store1 r.2
        | some content2 =>
          let store2 : Store := { store1 with provisional := some content2 }
          processDownloadedFile avail0 sc.db sc.moveOk r.1 store2 r.2
    else
      processDownloadedFile avail0 sc.db sc.moveOk st1 store1 evs2

/-- The source function `startDownload`: the try/catch body followed by
the finally block, which always clears the downloading flag and resets the
reported progress scalar to 0. -/
def startDownload (sc : Scenario) (st0 : AppState) (store0 : Store) : RunResult :=
  let r := startDownloadBody sc st0 store0
  { r with
      state := { r.state with downloading := false, downloadProgress := 0 },
      events := r.events ++ [Event.progress 0] }

/-- Result of the delete handler. -/
structure DelResult where
  state : AppState
  store : Store
  events : List Event
deriving DecidableEq

/-- The confirmed-delete handler inside the source function
`deleteOfflineMap`: close the database handle when one is held, then
delete the canonical file when it exists, clear the availability flag and
alert success. -/
def deleteOfflineMapConfirmed (st : AppState) (store : Store) : DelResult :=
  let p : AppState × List Event :=
    if st.dbHandle then ({ st with dbHandle := false }, [Event.dbClose])
    else (st, [])
  let q : Store × List Event :=
    match store.canonical with
    | some _ => ({ store with canonical := none }, p.2 ++ [Event.fileDelete mbtilesPath])
    | none => (store, p.2)
  ⟨{ p.1 with offlineMapAvailable := false }, q.1,
    q.2 ++ [Event.alert "Success" "Offline map deleted successfully"]⟩

/-- The compiled-in coverage region constant `KOLKATA_BOUNDS`, with the
decimal coordinate literals as exact rationals. -/
structure Bounds where
  minLat : ℚ
  maxLat : ℚ
  minLng : ℚ
  maxLng : ℚ
  centerLat : ℚ
  centerLng : ℚ

def KOLKATA_BOUNDS : Bounds :=
  { minLat := 22.479910, maxLat := 22.660090
    minLng := 88.262718, maxLng := 88.457282
    centerLat := 22.57, centerLng := 88.36 }

/-- The source function `isLocationInBounds`. -/
def isLocationInBounds (lat lng : ℚ) : Bool :=
  decide (lat ≥ KOLKATA_BOUNDS.minLat) && decide (lat ≤ KOLKATA_BOUNDS.maxLat) &&
  decide (lng ≥ KOLKATA_BOUNDS.minLng) && decide (lng ≤ KOLKATA_BOUNDS.maxLng)

/-- Transfer requests of a trace, in order. -/
def transferRequests (evs : List Event) : List (String × String) :=
  evs.filterMap (fun e => match e with
    | .transfer u d => some (u, d)
    | _ => none)

/-- Progress reports of a trace, in order. -/
def progressValues (evs : List Event) : List ℚ :=
  evs.filterMap (fun e => match e with
    | .progress q => some q
    | _ => none)

/-! ## Concrete fixtures used by the claim-level runs -/

/-- A SQLite oracle with every operation succeeding and a `tiles` table. -/
def dbmAllOk : DbModel := ⟨true, true, ["tiles"], true, true⟩

/-- A SQLite oracle with every operation succeeding but no `tiles` or
`tile` table in the schema. -/
def dbmNoTiles : DbModel := ⟨true, true, ["foo"], true, true⟩

/-- A 32-byte payload the source validator accepts: its first six bytes
are `STFFtm`, whose base64 encoding is the literal `U1RGRnRt` the code
compares against. -/
def validContent : List Nat := asciiBytes "STFFtm" ++ List.replicate 26 1

/-- The spec's wrong-header fixture: 32 zero bytes. -/
def zeroContent : List Nat := List.replicate 32 0

/-- A hosting page carrying a recoverable direct-download fragment
`uc?export=download&confirm=XYZ` inside a quoted href. -/
def htmlWithLink : List Nat :=
  asciiBytes "<!DOCTYPE html><a href=" ++ [34] ++
  asciiBytes "/uc?export=download&confirm=XYZ" ++ [34] ++ asciiBytes ">go</a>"

/-- A hosting page with no recoverable fragment. -/
def htmlPlain : List Nat := asciiBytes "<!DOCTYPE html><p>retry page</p>"

/-- The direct link the code derives from `htmlWithLink`. -/
def linkXYZ : String := "https://drive.google.com/uc?export=download&confirm=XYZ"

/-- Scenario: the transfer delivers the wrong-header payload. -/
def scC2 : Scenario :=
  { response := fun u => if u = GITHUB_RELEASE_URL then some zeroContent else none,
    initialEvents := [], retryEvents := [], moveOk := true, db := dbmAllOk }

/-- A store holding an installed canonical package and no provisional file. -/
def storeC2 : Store := { provisional := none, canonical := some (asciiBytes "OLD") }

/-- Scenario: the transfer delivers a payload the validator accepts, with
one mid-transfer progress sample, and every later step succeeding. -/
def scC3 : Scenario :=
  { response := fun u => if u = GITHUB_RELEASE_URL then some validContent else none,
    initialEvents := [(1, 2)], retryEvents := [], moveOk := true, db := dbmAllOk }

/-- The empty store. -/
def storeEmpty : Store := { provisional := none, canonical := none }

/-- Component state whose handler closures captured
`offlineMapAvailable = true`. -/
def stAvail : AppState := { initialAppState with offlineMapAvailable := true }

/-- Scenario: the first transfer yields the hosting page with a
recoverable fragment and the retry transfer yields a hosting page again. -/
def scC5 : Scenario :=
  { response := fun u => if u = GITHUB_RELEASE_URL then some htmlWithLink
                         else if u = linkXYZ then some htmlPlain else none,
    initialEvents := [], retryEvents := [], moveOk := true, db := dbmAllOk }

/-! ## Trace bookkeeping lemmas -/

@[simp] theorem transferRequests_nil : transferRequests [] = [] := rfl

@[simp] theorem transferRequests_cons_progress (q : ℚ) (l : List Event) :
    transferRequests (Event.progress q :: l) = transferRequests l := rfl

@[simp] theorem transferRequests_cons_alert (t m : String) (l : List Event) :
    transferRequests (Event.alert t m :: l) = transferRequests l := rfl

@[simp] theorem transferRequests_cons_dbClose (l : List Event) :
    transferRequests (Event.dbClose :: l) = transferRequests l := rfl

@[simp] theorem transferRequests_cons_fileDelete (p : String) (l : List Event) :
    transferRequests (Event.fileDelete p :: l) = transferRequests l := rfl

@[simp] theorem transferRequests_cons_transfer (u d : String) (l : List Event) :
    transferRequests (Event.transfer u d :: l) = (u, d) :: transferRequests l := rfl

@[simp] theorem transferRequests_append (a b : List Event) :
    transferRequests (a ++ b) = transferRequests a ++ transferRequests b := by
  simp [transferRequests]

@[simp] theorem progressValues_nil : progressValues [] = [] := rfl

@[simp] theorem progressValues_cons_progress (q : ℚ) (l : List Event) :
    progressValues (Event.progress q :: l) = q :: progressValues l := rfl

@[simp] theorem progressValues_cons_alert (t m : String) (l : List Event) :
    progressValues (Event.alert t m :: l) = progressValues l := rfl

@[simp] theorem progressValues_cons_dbClose (l : List Event) :
    progressValues (Event.dbClose :: l) = progressValues l := rfl

@[simp] theorem progressValues_cons_fileDelete (p : String) (l : List Event) :
    progressValues (Event.fileDelete p :: l) = progressValues l := rfl

@[simp] theorem progressValues_cons_transfer (u d : String) (l : List Event) :
    progressValues (Event.transfer u d :: l) = progressValues l := rfl

@[simp] theorem progressValues_append (a b : List Event) :
    progressValues (a ++ b) = progressValues a ++ progressValues b := by
  simp [progressValues]

theorem applyTransferEvents_snd (l : List (ℚ × ℚ)) (st : AppState) (evs : List Event) :
    (applyTransferEvents l st evs).2 =
      evs ++ l.map (fun s => Event.progress (transferProgress s.1 s.2)) := by
  induction l generalizing st evs with
  | nil => simp [applyTransferEvents]
  | cons s rest ih => simp [applyTransferEvents, ih]

@[simp] theorem transferRequests_progressMap (l : List (ℚ × ℚ)) :
    transferRequests (l.map (fun s => Event.progress (transferProgress s.1 s.2))) = [] := by
  simp [transferRequests, List.filterMap_eq_nil_iff]

@[simp] theorem progressValues_progressMap (l : List (ℚ × ℚ)) :
    progressValues (l.map (fun s => Event.progress (transferProgress s.1 s.2))) =
      l.map (fun s => transferProgress s.1 s.2) := by
  induction l with
  | nil => rfl
  | cons s rest ih => simp [ih]

theorem transferRequests_procCleanup (e : ProcError) (st : AppState) (store : Store) (evs : List Event) :
    transferRequests (procCleanup e st store evs).events = transferRequests evs := by
  unfold procCleanup
  split <;> simp

theorem progressValues_procCleanup (e : ProcError) (st : AppState) (store : Store) (evs : List Event) :
    progressValues (procCleanup e st store evs).events = progressValues evs := by
  unfold procCleanup
  split <;> simp

theorem transferRequests_processDownloadedFile (a : Bool) (dbm : DbModel) (mv : Bool)
    (st : AppState) (store : Store) (evs : List Event) :
    transferRequests (processDownloadedFile a dbm mv st store evs).events = transferRequests evs := by
  unfold processDownloadedFile
  split
  · exact transferRequests_procCleanup _ _ _ _
  · split
    · exact transferRequests_procCleanup _ _ _ _
    · split
      · exact transferRequests_procCleanup _ _ _ _
      · cases hc : store.canonical <;>
          simp only [hc] <;>
          · split
            · simp [transferRequests_procCleanup]
            · split
              · simp [transferRequests_procCleanup]
              · split
                · simp [transferRequests_procCleanup]
                · split <;> simp [transferRequests_procCleanup]

/-! ## Claim theorems -/

/-- C1: the claim says format validation accepts exactly the files whose
first 16 bytes are the SQLite signature.  The code instead compares the
base64 of the first 16 bytes against `U1RGRnRt`, which is the base64 of
the bytes `STFFtm`, not of the signature (whose base64, computed below,
is `U1FMaXRlIGZvcm1hdCAzAA==`): every genuine SQLite file is rejected
and a junk file beginning with `STFFtm` is accepted. -/
theorem C1_header_check_rejects_real_sqlite :
    isValidSQLiteDatabase sqliteSignature = false ∧
    isValidSQLiteDatabase (sqliteSignature ++ List.replicate 100 1) = false ∧
    isValidSQLiteDatabase validContent = true ∧
    validContent.take 16 ≠ sqliteSignature ∧
    (base64Encode sqliteSignature).asString = "U1FMaXRlIGZvcm1hdCAzAA==" := by
  decide

/-- C2: the claim says a failed install removes the provisional artifact
and leaves the canonical artifact untouched, so availability is unchanged.
On the invalid-format failure path the code does the reverse: the catch
block deletes the file at the canonical path and never deletes the
provisional file, so a pre-existing valid installation is destroyed and
availability flips from true to false. -/
theorem C2_invalid_format_failure_keeps_provisional_deletes_canonical :
    isAvailable dbmAllOk storeC2 = true ∧
    (startDownload scC2 initialAppState storeC2).outcome =
      Outcome.procFailed ProcError.invalidFormat ∧
    (startDownload scC2 initialAppState storeC2).store.provisional = some zeroContent ∧
    (startDownload scC2 initialAppState storeC2).store.canonical = none ∧
    isAvailable dbmAllOk (startDownload scC2 initialAppState storeC2).store = false := by
  with_unfolding_all decide

/-- C3: the claim says a run in which the header check, the move and the
post-move verification all pass ends on the success path with
`isAvailable()` true afterwards.  In the code the post-install check reads
the stale `offlineMapAvailable` closure value (false whenever the
download button was reachable), so such a run throws `corrupted`, shows
the failure alert, and the cleanup deletes the freshly installed canonical
artifact — while the live availability flag is left true.  The
`Event.progress 1` conjunct shows the install and its verification did
succeed before the failure path was taken. -/
theorem C3_verified_install_takes_failure_path_and_deletes_install :
    (startDownload scC3 initialAppState storeEmpty).outcome =
      Outcome.procFailed ProcError.corrupted ∧
    Event.progress 1 ∈ (startDownload scC3 initialAppState storeEmpty).events ∧
    Event.alert "Processing Failed" (procAlertMessage ProcError.corrupted) ∈
      (startDownload scC3 initialAppState storeEmpty).events ∧
    (startDownload scC3 initialAppState storeEmpty).store.canonical = none ∧
    isAvailable dbmAllOk (startDownload scC3 initialAppState storeEmpty).store = false ∧
    (startDownload scC3 initialAppState storeEmpty).state.offlineMapAvailable = true := by
  with_unfolding_all decide

/-- C5 counterexample: when the retry transfer delivers an HTML document
again, the run does not fail with any dedicated still-HTML error: the
code performs no second HTML check, so the HTML file flows into format
validation and the run fails with the `InvalidFormat` throw site (message
`Downloaded file is not a valid SQLite database (MBTiles file).`), after
exactly two transfer requests. -/
theorem C5_counterexample_retry_html_fails_invalid_format :
    (startDownload scC5 initialAppState storeEmpty).outcome =
      Outcome.procFailed ProcError.invalidFormat ∧
    Event.alert "Processing Failed" (procAlertMessage ProcError.invalidFormat) ∈
      (startDownload scC5 initialAppState storeEmpty).events ∧
    transferRequests (startDownload scC5 initialAppState storeEmpty).events =
      [(GITHUB_RELEASE_URL, tempDownloadPath), (linkXYZ, tempDownloadPath)] := by
  with_unfolding_all decide

/-- C6 counterexample: the claim requires a table named `tiles` or `tile`
for availability, but `initializeDatabase` only runs the row-count query
when such a table happens to exist and raises no error otherwise, so a
database exposing neither table still counts as available. -/
theorem C6_counterexample_available_without_tiles_table :
    isAvailable dbmNoTiles { provisional := none, canonical := some [1] } = true ∧
    dbmNoTiles.tables.contains "tiles" = false ∧
    dbmNoTiles.tables.contains "tile" = false := by
  decide

/-- C6 amended: `isAvailable` is true iff the canonical artifact exists
with size > 0, the open succeeds, the schema query succeeds, the
row-count query succeeds when a `tiles`/`tile` table exists, and the
metadata query succeeds when a `metadata` table exists; the presence of a
`tiles`/`tile` table is itself not required.  Exceptions (the failing
oracle cases) yield false rather than propagating. -/
theorem C6_amended_isAvailable_iff (dbm : DbModel) (store : Store) :
    isAvailable dbm store = true ↔
      ((∃ c, store.canonical = some c ∧ 0 < c.length) ∧ dbm.openOk = true ∧
       dbm.tablesOk = true ∧
       ((findTilesTable dbm.tables).isSome = true → dbm.countOk = true) ∧
       (dbm.tables.contains "metadata" = true → dbm.metadataOk = true)) := by
  rcases dbm with ⟨o, t, tbls, cnt, md⟩
  rcases store with ⟨prov, canon⟩
  cases canon with
  | none => simp [isAvailable, checkOfflineMapAvailability]
  | some c =>
    cases o <;> cases t <;> cases cnt <;> cases md <;>
      cases hft : findTilesTable tbls <;> cases hmd : tbls.contains "metadata" <;>
        by_cases hl : 0 < c.length <;>
          simp_all [isAvailable, checkOfflineMapAvailability, initDatabase,
            Nat.pos_iff_ne_zero]

/-- C7: the region gate returns true exactly when the latitude lies in
the closed interval `[minLat, maxLat]` and the longitude in
`[minLng, maxLng]` of the stored coverage bounds; closed intervals, so
boundary-equal coordinates return true, and the function is total. -/
theorem C7_region_gate_iff (lat lng : ℚ) :
    isLocationInBounds lat lng = true ↔
      (KOLKATA_BOUNDS.minLat ≤ lat ∧ lat ≤ KOLKATA_BOUNDS.maxLat ∧
       KOLKATA_BOUNDS.minLng ≤ lng ∧ lng ≤ KOLKATA_BOUNDS.maxLng) := by
  simp [isLocationInBounds, ge_iff_le, and_assoc]

/-- C8 counterexample: a fully successful run (outcome `success`) whose
transfer reported one mid-transfer sample.  The reported sequence is
`[0, 1/2, 1, 0]`: it does report 1.0 after install, but the finally block
then resets the scalar to 0, so the sequence ends at 0 and is not
non-decreasing. -/
theorem C8_counterexample_progress_ends_at_zero :
    (startDownload scC3 stAvail storeEmpty).outcome = Outcome.success ∧
    progressValues (startDownload scC3 stAvail storeEmpty).events = [0, 1/2, 1, 0] ∧
    (progressValues (startDownload scC3 stAvail storeEmpty).events).getLast? = some 0 ∧
    ¬ List.Sorted (· ≤ ·) (progressValues (startDownload scC3 stAvail storeEmpty).events) := by
  with_unfolding_all decide

/-- C9: the confirmed delete emits its events in the order close-handle
(only when a handle is held) then delete-canonical (only when the file
exists) then the success alert; afterwards the canonical artifact is gone
and the provisional path is untouched, and a second consecutive call is
non-erroring and a no-op on the store, emitting neither a close nor a
delete. -/
theorem C9_delete_close_order_and_idempotence (st : AppState) (store : Store) :
    (deleteOfflineMapConfirmed st store).events =
      (if st.dbHandle then [Event.dbClose] else []) ++
      (if store.canonical.isSome then [Event.fileDelete mbtilesPath] else []) ++
      [Event.alert "Success" "Offline map deleted successfully"] ∧
    (deleteOfflineMapConfirmed st store).store.canonical = none ∧
    (deleteOfflineMapConfirmed st store).store.provisional = store.provisional ∧
    (deleteOfflineMapConfirmed st store).state.offlineMapAvailable = false ∧
    (deleteOfflineMapConfirmed (deleteOfflineMapConfirmed st store).state
        (deleteOfflineMapConfirmed st store).store).store =
      (deleteOfflineMapConfirmed st store).store ∧
    (deleteOfflineMapConfirmed (deleteOfflineMapConfirmed st store).state
        (deleteOfflineMapConfirmed st store).store).events =
      [Event.alert "Success" "Offline map deleted successfully"] := by
  cases hdb : st.dbHandle <;> cases hc : store.canonical <;>
    simp [deleteOfflineMapConfirmed, hdb, hc]

/-- C10: every modelled run of the download operation, on every path,
settles with the downloading flag false and the reported progress scalar
reset to 0, and the last progress value of the trace is 0. -/
theorem C10_settled_state_flags_reset (sc : Scenario) (st0 : AppState) (store0 : Store) :
    (startDownload sc st0 store0).state.downloading = false ∧
    (startDownload sc st0 store0).state.downloadProgress = 0 ∧
    (progressValues (startDownload sc st0 store0).events).getLast? = some 0 := by
  refine ⟨rfl, rfl, ?_⟩
  show (progressValues ((startDownloadBody sc st0 store0).events ++ [Event.progress 0])).getLast? = some 0
  simp

/-! ## Pattern-matching lemmas -/

theorem takeWhile_all (p : α → Bool) : ∀ l : List α, (l.takeWhile p).all p = true
  | [] => rfl
  | a :: l => by
    rw [List.takeWhile_cons]
    cases h : p a <;> simp [h, takeWhile_all p l]

theorem startsWithB_cons [BEq α] [LawfulBEq α] {p : α} {ps l : List α}
    (h : startsWithB (p :: ps) l = true) : ∃ t, l = p :: t ∧ startsWithB ps t = true := by
  cases l with
  | nil => simp [startsWithB] at h
  | cons x xs =>
    simp only [startsWithB, Bool.and_eq_true, beq_iff_eq] at h
    exact ⟨xs, by rw [h.1], h.2⟩

theorem scanMatch_shape : ∀ {l m : List Nat}, scanMatch l = some m →
    ∃ tok, tok ≠ [] ∧ tok.all (fun c => c != 34) = true ∧ m = confirmPattern ++ tok := by
  intro l
  induction l with
  | nil => intro m h; simp [scanMatch] at h
  | cons b rest ih =>
    intro m h
    rw [scanMatch] at h
    split at h
    · split at h
      · exact ih h
      · rename_i htok
        refine ⟨_, ?_, takeWhile_all _ _, (Option.some.inj h).symm⟩
        intro hnil
        rw [hnil] at htok
        exact htok rfl
    · exact ih h

theorem bytesToString_append (a b : List Nat) :
    bytesToString (a ++ b) = bytesToString a ++ bytesToString b := by
  apply String.ext
  simp [bytesToString]

theorem extractDirectDownloadLink_shape {html : List Nat} {link : String}
    (h : extractDirectDownloadLink html = some link) :
    ∃ tok, tok ≠ [] ∧ tok.all (fun c => c != 34) = true ∧
      link = "https://drive.google.com/uc?export=download&confirm=" ++ bytesToString tok := by
  unfold extractDirectDownloadLink at h
  cases hm : scanMatch html with
  | none => rw [hm] at h; simp at h
  | some m =>
    rw [hm] at h
    simp only [Option.map] at h
    have h := Option.some.inj h
    obtain ⟨tok, hne, hall, rfl⟩ := scanMatch_shape hm
    refine ⟨tok, hne, hall, ?_⟩
    rw [← h, bytesToString_append, ← String.append_assoc]
    congr 1

theorem doctype_head {c : List Nat} (h : startsWithB doctypePattern c = true) :
    ∃ t, c = 60 :: 33 :: 68 :: t := by
  rw [show doctypePattern = 60 :: 33 :: 68 :: asciiBytes "OCTYPE html>" by decide] at h
  obtain ⟨t1, h1, h⟩ := startsWithB_cons h
  obtain ⟨t2, h2, h⟩ := startsWithB_cons h
  obtain ⟨t3, h3, _⟩ := startsWithB_cons h
  exact ⟨t3, by rw [h1, h2, h3]⟩

theorem isValid_false_of_doctype {c : List Nat} (h : startsWithB doctypePattern c = true) :
    isValidSQLiteDatabase c = false := by
  obtain ⟨t, rfl⟩ := doctype_head h
  unfold isValidSQLiteDatabase
  rw [show (60 :: 33 :: 68 :: t).take 16 = 60 :: 33 :: 68 :: t.take 13 from rfl]
  simp only [base64Encode]
  norm_num
  simp only [startsWithB]
  rw [show ('U' == base64Char 15) = false from by decide]
  simp

theorem procCleanup_outcome (e : ProcError) (st : AppState) (store : Store) (evs : List Event) :
    (procCleanup e st store evs).outcome = Outcome.procFailed e := by
  unfold procCleanup
  split <;> rfl

/-- C4: when the first transfer delivers content whose 100-byte prefix
matches the HTML signature, the pipeline applies the link extraction to
the entire content; if extraction fails the run settles as
`redirectExtractionFailed` after exactly one transfer request, and if it
succeeds exactly one retry transfer is issued, against the derived direct
link (the hosting domain followed by the matched
`uc?export=download&confirm=<token>` fragment, with a non-empty quote-free
token), targeting the same provisional path. -/
theorem C4_redirect_extraction_and_single_retry
    (sc : Scenario) (st0 : AppState) (store0 : Store) (content : List Nat)
    (hresp : sc.response GITHUB_RELEASE_URL = some content)
    (hdoc : containsSub doctypePattern (content.take 100) = true) :
    (extractDirectDownloadLink content = none →
      (startDownload sc st0 store0).outcome =
        Outcome.downloadFailed DlError.redirectExtractionFailed ∧
      transferRequests (startDownload sc st0 store0).events =
        [(GITHUB_RELEASE_URL, tempDownloadPath)]) ∧
    (∀ link, extractDirectDownloadLink content = some link →
      transferRequests (startDownload sc st0 store0).events =
        [(GITHUB_RELEASE_URL, tempDownloadPath), (link, tempDownloadPath)] ∧
      ∃ tok, tok ≠ [] ∧ tok.all (fun c => c != 34) = true ∧
        link = "https://drive.google.com/uc?export=download&confirm=" ++ bytesToString tok) := by
  constructor
  · intro hnone
    unfold startDownload startDownloadBody
    cases hp : store0.provisional <;>
      simp [hp, hresp, hdoc, hnone, applyTransferEvents_snd, dlCatch]
  · intro link hlink
    refine ⟨?_, extractDirectDownloadLink_shape hlink⟩
    unfold startDownload startDownloadBody
    cases hp : store0.provisional <;>
      cases hretry : sc.response link <;>
        simp [hp, hresp, hdoc, hlink, hretry, applyTransferEvents_snd, dlCatch,
          transferRequests_processDownloadedFile]

/-- Witness for C4 on the concrete hosting-page scenario. -/
theorem C4_redirect_extraction_and_single_retry_witness :
    transferRequests (startDownload scC5 initialAppState storeEmpty).events =
      [(GITHUB_RELEASE_URL, tempDownloadPath), (linkXYZ, tempDownloadPath)] ∧
    ∃ tok, tok ≠ [] ∧ tok.all (fun c => c != 34) = true ∧
      linkXYZ = "https://drive.google.com/uc?export=download&confirm=" ++ bytesToString tok :=
  (C4_redirect_extraction_and_single_retry scC5 initialAppState storeEmpty htmlWithLink
    (by with_unfolding_all decide) (by decide)).2 linkXYZ (by with_unfolding_all decide)

/-- C5 amended: no more than one redirect retry is ever attempted, and if
the retry transfer delivers an HTML document again the call fails — but
through format validation (`invalidFormat`, since the code performs no
second HTML check and has no dedicated still-HTML error) — after exactly
the two transfer requests, with no third transfer and no loop (the run is
a total function). -/
theorem C5_amended_no_third_transfer
    (sc : Scenario) (st0 : AppState) (store0 : Store) (c1 c2 : List Nat) (link : String)
    (h1 : sc.response GITHUB_RELEASE_URL = some c1)
    (h2 : containsSub doctypePattern (c1.take 100) = true)
    (h3 : extractDirectDownloadLink c1 = some link)
    (h4 : sc.response link = some c2)
    (h5 : startsWithB doctypePattern c2 = true) :
    (startDownload sc st0 store0).outcome = Outcome.procFailed ProcError.invalidFormat ∧
    transferRequests (startDownload sc st0 store0).events =
      [(GITHUB_RELEASE_URL, tempDownloadPath), (link, tempDownloadPath)] := by
  have hval : isValidSQLiteDatabase c2 = false := isValid_false_of_doctype h5
  obtain ⟨t, rfl⟩ := doctype_head h5
  unfold startDownload startDownloadBody
  cases hp : store0.provisional <;>
    simp [hp, h1, h2, h3, h4, hval, applyTransferEvents_snd, dlCatch,
      processDownloadedFile, procCleanup_outcome, transferRequests_procCleanup]

/-- Witness for the amended C5 on the concrete twice-HTML scenario. -/
theorem C5_amended_no_third_transfer_witness :
    (startDownload scC5 initialAppState storeEmpty).outcome =
      Outcome.procFailed ProcError.invalidFormat ∧
    transferRequests (startDownload scC5 initialAppState storeEmpty).events =
      [(GITHUB_RELEASE_URL, tempDownloadPath), (linkXYZ, tempDownloadPath)] :=
  C5_amended_no_third_transfer scC5 initialAppState storeEmpty htmlWithLink htmlPlain linkXYZ
    (by with_unfolding_all decide) (by decide) (by with_unfolding_all decide)
    (by with_unfolding_all decide) (by decide)

/-- C8 amended: in an install-completing run (payload accepted, move and
verification succeed) with well-formed transfer callbacks, every
transfer-phase progress value lies in `[0, 0.9]`, and the full reported
sequence is `0`, the transfer values, then `1.0` at install — a
non-decreasing sequence through the `1.0` — but the finally block then
resets the scalar, so the complete sequence carries a trailing `0` and
ends at `0`, not `1.0`. -/
theorem C8_amended_progress_profile
    (sc : Scenario) (st0 : AppState) (store0 : Store) (content : List Nat)
    (h1 : sc.response GITHUB_RELEASE_URL = some content)
    (h2 : containsSub doctypePattern (content.take 100) = false)
    (h3 : content.length ≠ 0)
    (h4 : isValidSQLiteDatabase content = true)
    (h5 : sc.moveOk = true)
    (h6 : ∀ s ∈ sc.initialEvents, 0 ≤ s.1 ∧ 0 < s.2 ∧ s.1 ≤ s.2)
    (h7 : List.Sorted (· ≤ ·) (sc.initialEvents.map (fun s => transferProgress s.1 s.2))) :
    progressValues (startDownload sc st0 store0).events =
      0 :: (sc.initialEvents.map (fun s => transferProgress s.1 s.2) ++ [1, 0]) ∧
    (∀ v ∈ sc.initialEvents.map (fun s => transferProgress s.1 s.2), 0 ≤ v ∧ v ≤ 9/10) ∧
    List.Sorted (· ≤ ·) (0 :: (sc.initialEvents.map (fun s => transferProgress s.1 s.2) ++ [1])) ∧
    (progressValues (startDownload sc st0 store0).events).getLast? = some 0 := by
  have hbounds : ∀ v ∈ sc.initialEvents.map (fun s => transferProgress s.1 s.2),
      0 ≤ v ∧ v ≤ 9/10 := by
    intro v hv
    rw [List.mem_map] at hv
    obtain ⟨s, hs, rfl⟩ := hv
    obtain ⟨hw, he, hwe⟩ := h6 s hs
    unfold transferProgress
    split
    · exact ⟨div_nonneg hw he.le, by assumption⟩
    · norm_num
  have hlen : (content.length == 0) = false := by simpa using h3
  have htrace : progressValues (startDownload sc st0 store0).events =
      0 :: (sc.initialEvents.map (fun s => transferProgress s.1 s.2) ++ [1, 0]) := by
    unfold startDownload startDownloadBody
    cases hp : store0.provisional <;>
      cases hcan : store0.canonical <;>
        cases ha : st0.offlineMapAvailable <;>
          simp [hp, hcan, ha, h1, h2, h4, h5, hlen, applyTransferEvents_snd,
            processDownloadedFile, procCleanup]
  refine ⟨htrace, hbounds, ?_, ?_⟩
  · refine List.sorted_cons.mpr ⟨?_, ?_⟩
    · intro b hb
      rcases List.mem_append.mp hb with hb | hb
      · exact (hbounds b hb).1
      · rw [List.mem_singleton] at hb; subst hb; norm_num
    · refine List.pairwise_append.mpr ⟨h7, List.sorted_singleton 1, ?_⟩
      intro a ha b hb
      rw [List.mem_singleton] at hb; subst hb
      have := (hbounds a ha).2
      linarith
  · have hlast : ∀ (l : List ℚ), ((0:ℚ) :: (l ++ [1, 0])).getLast? = some 0 := by
      intro l
      rw [show ((0:ℚ) :: (l ++ [1, 0])) = ((0 :: (l ++ [1])) ++ [0]) by simp]
      exact List.getLast?_concat _
    rw [htrace]
    exact hlast _

/-- Witness for the amended C8 on the concrete successful-install run. -/
theorem C8_amended_progress_profile_witness :
    progressValues (startDownload scC3 initialAppState storeEmpty).events =
      0 :: (scC3.initialEvents.map (fun s => transferProgress s.1 s.2) ++ [1, 0]) ∧
    (∀ v ∈ scC3.initialEvents.map (fun s => transferProgress s.1 s.2), 0 ≤ v ∧ v ≤ 9/10) ∧
    List.Sorted (· ≤ ·)
      (0 :: (scC3.initialEvents.map (fun s => transferProgress s.1 s.2) ++ [1])) ∧
    (progressValues (startDownload scC3 initialAppState storeEmpty).events).getLast? = some 0 :=
  C8_amended_progress_profile scC3 initialAppState storeEmpty validContent
    (by with_unfolding_all decide) (by decide) (by decide) (by decide) rfl
    (by with_unfolding_all decide) (by with_unfolding_all decide)
